import Mathlib

/-!
Shallow embedding of the MediaConduit whisper-provider lifecycle and client
code (src/src/WhisperDockerProvider.ts, src/src/WhisperDockerModel.ts and the
unnamed provider variant), together with a spec-modelled transcription client
(WhisperAPIClient.ts is imported by every source file but is not present in
the repository sources).

Effectful TypeScript methods are embedded as pure functions over an explicit
provider state; calls made to the external orchestration collaborator
(the docker service manager) are recorded in an explicit trace so that
"no orchestration call is issued" is a provable statement.  A collaborator
method that may throw is modelled as an `Except String` value; a JavaScript
try/catch around it becomes a `match` on that value.
-/

namespace WhisperProvider

/-- Calls the provider can make on the external docker service manager
(the orchestration collaborator of the spec). -/
inductive OrchCall where
  | start
  | stop
  | status
  | info
  deriving DecidableEq, Repr

/-- Service information returned by the orchestration collaborator
(WhisperServiceInfo in the unnamed types file: the `ports` field is the
ordered list of exposed ports). -/
structure ServiceInfo where
  ports : List Nat
  deriving DecidableEq, Repr

/-- Raw status record returned by the collaborator's getServiceStatus:
`{running: bool, health: string, error?: string}`. -/
structure RawServiceStatus where
  running : Bool
  health : String
  error : Option String
  deriving DecidableEq, Repr

/-- Decidable equality for `Except`, needed so that concrete collaborator
outcomes can be compared by `decide`. -/
instance {ε α : Type} [DecidableEq ε] [DecidableEq α] : DecidableEq (Except ε α)
  | Except.error a, Except.error b =>
    if h : a = b then isTrue (h ▸ rfl) else isFalse (fun he => h (Except.error.inj he))
  | Except.error _, Except.ok _ => isFalse (fun he => Except.noConfusion he)
  | Except.ok _, Except.error _ => isFalse (fun he => Except.noConfusion he)
  | Except.ok a, Except.ok b =>
    if h : a = b then isTrue (h ▸ rfl) else isFalse (fun he => h (Except.ok.inj he))

/-- The external docker service manager.  Each method is modelled by the
outcome of calling it: `Except.error msg` models a thrown exception with
message `msg`, `Except.ok v` a normal return of `v`. -/
structure DockerServiceManager where
  startServiceResult : Except String Bool
  stopServiceResult : Except String Bool
  getServiceStatusResult : Except String RawServiceStatus
  getServiceInfoResult : Except String ServiceInfo
  deriving DecidableEq, Repr

/-- The WhisperAPIClient value as constructed by the provider:
`new WhisperAPIClient(baseUrl, timeout)`. -/
structure WhisperAPIClient where
  baseUrl : String
  timeout : Nat
  deriving DecidableEq, Repr

/-- Mutable fields of WhisperDockerProvider that the embedded methods touch:
the optional docker service manager and the optional API client. -/
structure ProviderState where
  dockerServiceManager : Option DockerServiceManager
  apiClient : Option WhisperAPIClient
  deriving DecidableEq, Repr

/-- The port the unnamed provider variant falls back to: in
`serviceInfo.ports?.[0] || 9000` an absent first port, and also a first port
equal to 0 (falsy in JavaScript), yield 9000. -/
def firstPortOr9000 (ports : List Nat) : Nat :=
  match ports.head? with
  | none => 9000
  | some p => if p = 0 then 9000 else p

/-- Embeds setupAPIClientFromService of the unnamed provider variant: reads
getServiceInfo() from the manager, takes `ports?.[0] || 9000`, and replaces
the API client with one pointing at `http://localhost:` ++ that port;
a thrown getServiceInfo is caught and leaves the state unchanged.  Returns
the new state and the trace of orchestration calls made. -/
def setupAPIClientFromService (s : ProviderState) : ProviderState × List OrchCall :=
  match s.dockerServiceManager with
  | none => (s, [])
  | some mgr =>
    match mgr.getServiceInfoResult with
    | Except.error _ => (s, [OrchCall.info])
    | Except.ok serviceInfo =>
      let port := firstPortOr9000 serviceInfo.ports
      ({ s with apiClient := some { baseUrl := "http://localhost:" ++ toString port, timeout := 30000 } },
       [OrchCall.info])

/-- Embeds detectServiceUrl of the unnamed provider variant: returns
`http://localhost:` ++ (`ports?.[0] || 9000`) when a manager is present and
getServiceInfo succeeds, and `undefined` (here `none`) otherwise. -/
def detectServiceUrl (s : ProviderState) : Option String × List OrchCall :=
  match s.dockerServiceManager with
  | none => (none, [])
  | some mgr =>
    match mgr.getServiceInfoResult with
    | Except.error _ => (none, [OrchCall.info])
    | Except.ok serviceInfo =>
      (some ("http://localhost:" ++ toString (firstPortOr9000 serviceInfo.ports)),
       [OrchCall.info])

/-- Embeds updateAPIClientPort of the unnamed provider variant: after a
successful start, re-reads getServiceInfo; `if (port && port !== 9000)` a new
client is installed on that port, otherwise the configuration is kept. -/
def updateAPIClientPort (s : ProviderState) : ProviderState × List OrchCall :=
  match s.dockerServiceManager with
  | none => (s, [])
  | some mgr =>
    match mgr.getServiceInfoResult with
    | Except.error _ => (s, [OrchCall.info])
    | Except.ok serviceInfo =>
      match serviceInfo.ports.head? with
      | none => (s, [OrchCall.info])
      | some port =>
        if port ≠ 0 ∧ port ≠ 9000 then
          ({ s with apiClient := some { baseUrl := "http://localhost:" ++ toString port, timeout := 30000 } },
           [OrchCall.info])
        else (s, [OrchCall.info])

/-- Embeds WhisperDockerProvider.startService: with no manager configured it
returns false without calling anything; with a manager it always calls the
manager's startService, catches any exception into a plain false return, and
on a true result runs updateAPIClientPort.  Result: new state, the boolean
returned to the caller, and the trace of orchestration calls. -/
def startService (s : ProviderState) : ProviderState × Bool × List OrchCall :=
  match s.dockerServiceManager with
  | none => (s, false, [])
  | some mgr =>
    match mgr.startServiceResult with
    | Except.error _ => (s, false, [OrchCall.start])
    | Except.ok result =>
      if result then
        let u := updateAPIClientPort s
        (u.1, result, OrchCall.start :: u.2)
      else (s, result, [OrchCall.start])

/-- Embeds WhisperDockerProvider.stopService: with no manager it returns
false; with a manager it always calls the manager's stopService and catches
any exception into a plain false return. -/
def stopService (s : ProviderState) : ProviderState × Bool × List OrchCall :=
  match s.dockerServiceManager with
  | none => (s, false, [])
  | some mgr =>
    match mgr.stopServiceResult with
    | Except.error _ => (s, false, [OrchCall.stop])
    | Except.ok result => (s, result, [OrchCall.stop])

/-- The status record WhisperDockerProvider.getServiceStatus returns to its
caller: `{running, healthy, error?}`. -/
structure ProviderServiceStatus where
  running : Bool
  healthy : Bool
  error : Option String
  deriving DecidableEq, Repr

/-- Embeds WhisperDockerProvider.getServiceStatus: maps the collaborator's
raw status to `{running: status.running || false, healthy: status.health ===
"healthy", error: status.health === "unhealthy" ? status.error : undefined}`;
a thrown exception is caught into `{running: false, healthy: false, error:
error.message}`, and an absent manager yields `{running: false, healthy:
false, error: "No Docker service manager"}`. -/
def getServiceStatus (s : ProviderState) : ProviderServiceStatus × List OrchCall :=
  match s.dockerServiceManager with
  | none => ({ running := false, healthy := false, error := some "No Docker service manager" }, [])
  | some mgr =>
    match mgr.getServiceStatusResult with
    | Except.error msg => ({ running := false, healthy := false, error := some msg }, [OrchCall.status])
    | Except.ok st =>
      ({ running := st.running,
         healthy := st.health == "healthy",
         error := if st.health = "unhealthy" then st.error else none },
       [OrchCall.status])

/-- Embeds WhisperDockerProvider.isAvailable (identical in every provider
variant): false when no API client is configured, otherwise the result of
`apiClient.checkHealth()` with any thrown exception caught into false.
The health probe outcome is supplied by the `checkHealth` oracle. -/
def isAvailable (s : ProviderState) (checkHealth : WhisperAPIClient → Except String Bool) : Bool :=
  match s.apiClient with
  | none => false
  | some c =>
    match checkHealth c with
    | Except.error _ => false
    | Except.ok b => b

/-- Embeds onServiceReady of the AbstractDockerProvider-based variant in
WhisperDockerProvider.ts: `const port = serviceInfo.ports[0]` with no guard
(an empty list gives the JavaScript string "undefined" in the template
literal), then installs `new WhisperAPIClient(baseUrl, 30000)`. -/
def onServiceReady (serviceInfo : ServiceInfo) (s : ProviderState) : ProviderState :=
  let portStr :=
    match serviceInfo.ports.head? with
    | none => "undefined"
    | some p => toString p
  { s with apiClient := some { baseUrl := "http://localhost:" ++ portStr, timeout := 30000 } }

/-- One entry of the fixed model catalog returned by getModels. -/
structure ProviderModelEntry where
  id : String
  name : String
  deriving DecidableEq, Repr

/-- Embeds WhisperDockerProvider.getModels: a fixed five-model catalog,
independent of the provider state. -/
def getModels (_s : ProviderState) : List ProviderModelEntry :=
  [ { id := "whisper-tiny", name := "Whisper Tiny" },
    { id := "whisper-base", name := "Whisper Base" },
    { id := "whisper-small", name := "Whisper Small" },
    { id := "whisper-medium", name := "Whisper Medium" },
    { id := "whisper-large", name := "Whisper Large" } ]

/-- An ASCII apostrophe, used verbatim in the getModel error message. -/
def apos : String := String.singleton (Char.ofNat 39)

/-- Embeds WhisperDockerProvider.getModel: finds the entry with the requested
id in the catalog and otherwise throws an error naming the requested id. -/
def getModel (s : ProviderState) (modelId : String) : Except String ProviderModelEntry :=
  match (getModels s).find? (fun m => m.id == modelId) with
  | some m => Except.ok m
  | none => Except.error ("Model " ++ apos ++ modelId ++ apos ++ " not found in WhisperDockerProvider")

/-- Mutable fields of WhisperDockerModel: the bound model id/name and the
API client reference (optional at runtime even though the TypeScript type is
non-optional, since the provider passes `this.apiClient!`). -/
structure WhisperDockerModel where
  id : String
  name : String
  apiClient : Option WhisperAPIClient
  deriving DecidableEq, Repr

/-- The record WhisperDockerModel.transform returns. -/
structure ModelTransformResult where
  text : String
  model : String
  timestamp : String
  deriving DecidableEq, Repr

/-- Embeds WhisperDockerModel.transform as written in the source: it ignores
the input, the options and the API client and returns the fixed record
`{text: "Transcribed text would be here", model: this.id, timestamp}`.
The second component counts API-client calls made by the body (zero: the body
never references the client). -/
def WhisperDockerModel.transform (m : WhisperDockerModel) (_input : List Nat)
    (_options : Option String) (now : String) : ModelTransformResult × Nat :=
  ({ text := "Transcribed text would be here", model := m.id, timestamp := now }, 0)

/-- Embeds WhisperDockerModel.isAvailable: `this.apiClient ? await
this.apiClient.checkHealth() : false` with any exception caught into false. -/
def WhisperDockerModel.isAvailable (m : WhisperDockerModel)
    (checkHealth : WhisperAPIClient → Except String Bool) : Bool :=
  match m.apiClient with
  | none => false
  | some c =>
    match checkHealth c with
    | Except.error _ => false
    | Except.ok b => b

/-- The fixed supported input format list, taken verbatim from the manifest
in the repository (supportedFormats.input). -/
def supportedInputFormats : List String :=
  ["mp3", "wav", "flac", "m4a", "ogg", "wma", "aac", "opus", "webm"]

/-- Characters after the last dot of a filename, given the reversed
character list: none when no dot occurs. -/
def extAfterLastDot : List Char → Option (List Char)
  | [] => none
  | c :: cs =>
    if c = '.' then some [] else Option.map (fun e => c :: e) (extAfterLastDot cs)

/-- The extension of a filename: the text after the last dot, empty when the
filename contains no dot. -/
def extension (filename : String) : String :=
  match extAfterLastDot filename.toList.reverse with
  | none => ""
  | some revExt => String.mk revExt.reverse

/-- Modelled from the spec: WhisperAPIClient.ts is imported by every source
file but absent from the repository sources; its format validation is
modelled from section 4.4 step (1), checking the filename extension against
the manifest-declared supported input format set. -/
def validateAudioFormat (filename : String) : Bool :=
  decide (extension filename ∈ supportedInputFormats)

/-- The maximum audio payload size: 25 MB per the manifest and spec. -/
def maxPayloadBytes : Nat := 25 * 1024 * 1024

/-- The lifecycle status enum of the spec data model. -/
inductive ServiceStatus where
  | Unknown
  | Starting
  | Running
  | Degraded
  | Stopped
  | Error (message : String)
  deriving DecidableEq, Repr

/-- The error taxonomy of spec section 7.  ServiceUnavailable optionally
carries the last underlying transport error; InvalidRequest carries the
remote 4xx message. -/
inductive WhisperError where
  | UnsupportedFormat
  | PayloadTooLarge
  | ServiceUnavailable (last : Option String)
  | InvalidRequest (message : String)
  | MalformedResponse
  | UnsupportedCapability
  | EndpointUnavailable
  | LifecycleError (message : String)
  deriving DecidableEq, Repr

/-- A transcription request as in the spec data model. -/
structure TranscriptionRequest where
  audioBytes : List Nat
  filename : String
  language : String := "auto"
  task : String := "transcribe"
  wordTimestamps : Bool := false
  deriving DecidableEq, Repr

/-- The retry policy of the spec data model: maxAttempts is the total number
of attempts (at least 1). -/
structure RetryPolicy where
  maxAttempts : Nat
  timeoutMs : Nat
  deriving DecidableEq, Repr

/-- The remote response body, reduced to the field the claims need: the
transcribed-text field, absent in a malformed response. -/
structure RemoteBody where
  text : Option String
  deriving DecidableEq, Repr

/-- Outcome of one network attempt against the remote service: a
transport-level failure or timeout carrying its message, a remote 4xx
application error carrying its status and message, or a 2xx success carrying
the parsed body. -/
inductive AttemptOutcome where
  | transport (message : String)
  | clientError (status : Nat) (message : String)
  | success (body : RemoteBody)
  deriving DecidableEq, Repr

/-- Modelled from the spec: the retry loop of WhisperAPIClient.transcribe
(section 4.4 steps 6 to 8), over an oracle giving the outcome of each
attempt.  A transport failure or timeout is retried while attempts remain; a
4xx response is terminal and maps to InvalidRequest immediately; a success
with a missing text field maps to MalformedResponse; exhausting all attempts
yields ServiceUnavailable carrying the last transport error.  The second
component counts the attempts actually made. -/
def runAttempts (outcomes : Nat → AttemptOutcome) : Nat → Nat → Except WhisperError String × Nat
  | _, 0 => (Except.error (WhisperError.ServiceUnavailable none), 0)
  | idx, fuel + 1 =>
    match outcomes idx with
    | AttemptOutcome.clientError _ msg => (Except.error (WhisperError.InvalidRequest msg), 1)
    | AttemptOutcome.success body =>
      match body.text with
      | none => (Except.error WhisperError.MalformedResponse, 1)
      | some t => (Except.ok t, 1)
    | AttemptOutcome.transport msg =>
      if fuel = 0 then (Except.error (WhisperError.ServiceUnavailable (some msg)), 1)
      else
        let r := runAttempts outcomes (idx + 1) fuel
        (r.1, r.2 + 1)

/-- Modelled from the spec: WhisperAPIClient.transcribe (section 4.4), since
WhisperAPIClient.ts is absent from the repository sources.  Validation runs
before any network I/O: extension check, then 25 MB size check, then the
ServiceStatus gate; only then is the retry loop entered with
RetryPolicy.maxAttempts total attempts.  The second component counts the
network attempts issued (zero for every validation failure). -/
def transcribe (st : ServiceStatus) (policy : RetryPolicy) (req : TranscriptionRequest)
    (outcomes : Nat → AttemptOutcome) : Except WhisperError String × Nat :=
  if validateAudioFormat req.filename = false then
    (Except.error WhisperError.UnsupportedFormat, 0)
  else if maxPayloadBytes < req.audioBytes.length then
    (Except.error WhisperError.PayloadTooLarge, 0)
  else if st ≠ ServiceStatus.Running then
    (Except.error (WhisperError.ServiceUnavailable none), 0)
  else
    runAttempts outcomes 0 policy.maxAttempts

/-! Concrete fixture states used by the theorems below. -/

/-- A manager reporting ports [0, 9002]: non-empty, with first port 0. -/
def mgrZeroPort : DockerServiceManager :=
  { startServiceResult := Except.ok true
    stopServiceResult := Except.ok true
    getServiceStatusResult := Except.ok { running := true, health := "healthy", error := none }
    getServiceInfoResult := Except.ok { ports := [0, 9002] } }

/-- Provider state holding `mgrZeroPort` and no API client yet. -/
def sZeroPort : ProviderState :=
  { dockerServiceManager := some mgrZeroPort, apiClient := none }

/-- A manager reporting ports [9001, 9002]. -/
def mgrTwoPorts : DockerServiceManager :=
  { startServiceResult := Except.ok true
    stopServiceResult := Except.ok true
    getServiceStatusResult := Except.ok { running := true, health := "healthy", error := none }
    getServiceInfoResult := Except.ok { ports := [9001, 9002] } }

/-- Provider state holding `mgrTwoPorts` and no API client yet. -/
def sTwoPorts : ProviderState :=
  { dockerServiceManager := some mgrTwoPorts, apiClient := none }

/-- A manager reporting an empty ports list. -/
def mgrNoPorts : DockerServiceManager :=
  { startServiceResult := Except.ok true
    stopServiceResult := Except.ok true
    getServiceStatusResult := Except.ok { running := true, health := "healthy", error := none }
    getServiceInfoResult := Except.ok { ports := [] } }

/-- Provider state holding `mgrNoPorts` and no API client yet. -/
def sNoPorts : ProviderState :=
  { dockerServiceManager := some mgrNoPorts, apiClient := none }

/-- A second state holding `mgrNoPorts`, with an API client already present. -/
def sNoPortsConfigured : ProviderState :=
  { dockerServiceManager := some mgrNoPorts,
    apiClient := some { baseUrl := "http://localhost:8080", timeout := 30000 } }

/-- A manager whose service is not running (health unknown). -/
def mgrNotRunning : DockerServiceManager :=
  { startServiceResult := Except.ok true
    stopServiceResult := Except.ok true
    getServiceStatusResult := Except.ok { running := false, health := "unknown", error := none }
    getServiceInfoResult := Except.ok { ports := [9001] } }

/-- Provider state whose lifecycle status is not running but whose API client
answers health probes. -/
def sNotRunning : ProviderState :=
  { dockerServiceManager := some mgrNotRunning,
    apiClient := some { baseUrl := "http://localhost:9001", timeout := 30000 } }

/-- A manager whose service is already running and healthy. -/
def mgrRunning : DockerServiceManager :=
  { startServiceResult := Except.ok true
    stopServiceResult := Except.ok true
    getServiceStatusResult := Except.ok { running := true, health := "healthy", error := none }
    getServiceInfoResult := Except.ok { ports := [9001] } }

/-- Provider state whose lifecycle status is running. -/
def sRunning : ProviderState :=
  { dockerServiceManager := some mgrRunning,
    apiClient := some { baseUrl := "http://localhost:9001", timeout := 30000 } }

/-- A manager every method of which throws with message "boom-alpha". -/
def mgrBoomAlpha : DockerServiceManager :=
  { startServiceResult := Except.error "boom-alpha"
    stopServiceResult := Except.error "boom-alpha"
    getServiceStatusResult := Except.error "boom-alpha"
    getServiceInfoResult := Except.error "boom-alpha" }

/-- A manager every method of which throws with message "boom-beta". -/
def mgrBoomBeta : DockerServiceManager :=
  { startServiceResult := Except.error "boom-beta"
    stopServiceResult := Except.error "boom-beta"
    getServiceStatusResult := Except.error "boom-beta"
    getServiceInfoResult := Except.error "boom-beta" }

/-- Provider state holding `mgrBoomAlpha`. -/
def sBoomAlpha : ProviderState :=
  { dockerServiceManager := some mgrBoomAlpha, apiClient := none }

/-- Provider state holding `mgrBoomBeta`. -/
def sBoomBeta : ProviderState :=
  { dockerServiceManager := some mgrBoomBeta, apiClient := none }

/-- A completely unconfigured provider state. -/
def sUnconfigured : ProviderState :=
  { dockerServiceManager := none, apiClient := none }

/-- A model whose API client reference is absent. -/
def modelNoClient : WhisperDockerModel :=
  { id := "whisper-base", name := "Whisper Base", apiClient := none }

/-- A model bound to whisper-base with a client at localhost:9000. -/
def modelBase : WhisperDockerModel :=
  { id := "whisper-base", name := "Whisper Base",
    apiClient := some { baseUrl := "http://localhost:9000", timeout := 30000 } }

/-- The five catalog model ids. -/
def whisperCatalogIds : List String :=
  ["whisper-tiny", "whisper-base", "whisper-small", "whisper-medium", "whisper-large"]

/-! Theorems. -/

/-- C1 counterexample: the ports list [0, 9002] is non-empty, yet
setupAPIClientFromService builds the base URL from the invented fallback port
9000, not from the first port 0, because the JavaScript expression
`serviceInfo.ports?.[0] || 9000` treats a first port of 0 as falsy. -/
theorem setup_zero_first_port_cex :
    (setupAPIClientFromService sZeroPort).1.apiClient =
      some { baseUrl := "http://localhost:9000", timeout := 30000 }
    ∧ ("http://localhost:9000" : String) ≠ "http://localhost:0" := by
  exact ⟨rfl, by decide⟩

/-- C1 (amended): for every serviceInfo whose ports list is non-empty,
onServiceReady builds the base URL from the first port unconditionally, and
setupAPIClientFromService builds it from the first port whenever that port is
nonzero (a zero first port falls back to 9000). -/
theorem endpoint_first_port (s : ProviderState) (mgr : DockerServiceManager)
    (serviceInfo : ServiceInfo) (p : Nat) (rest : List Nat)
    (hports : serviceInfo.ports = p :: rest) :
    (onServiceReady serviceInfo s).apiClient =
      some { baseUrl := "http://localhost:" ++ toString p, timeout := 30000 }
    ∧ (p ≠ 0 → s.dockerServiceManager = some mgr →
        mgr.getServiceInfoResult = Except.ok serviceInfo →
        (setupAPIClientFromService s).1.apiClient =
          some { baseUrl := "http://localhost:" ++ toString p, timeout := 30000 }) := by
  constructor
  · simp [onServiceReady, hports]
  · intro hp hmgr hinfo
    simp [setupAPIClientFromService, hmgr, hinfo, firstPortOr9000, hports, hp]

/-- C1 witness: with ports [9001, 9002] both resolution paths build the base
URL from 9001, never 9002. -/
theorem endpoint_first_port_witness :
    (onServiceReady { ports := [9001, 9002] } sTwoPorts).apiClient =
      some { baseUrl := "http://localhost:9001", timeout := 30000 }
    ∧ (setupAPIClientFromService sTwoPorts).1.apiClient =
      some { baseUrl := "http://localhost:9001", timeout := 30000 } := by
  have h := endpoint_first_port sTwoPorts mgrTwoPorts { ports := [9001, 9002] } 9001 [9002] rfl
  exact ⟨h.1.trans (by decide), (h.2 (by decide) rfl rfl).trans (by decide)⟩

/-- C2 counterexample: with an empty ports list, endpoint resolution does not
fail at all: setupAPIClientFromService silently installs a client on the
hardcoded fallback port 9000 and detectServiceUrl returns the hardcoded 9000
URL, contradicting the claimed EndpointUnavailable failure. -/
theorem empty_ports_fallback_cex :
    (setupAPIClientFromService sNoPorts).1.apiClient =
      some { baseUrl := "http://localhost:9000", timeout := 30000 }
    ∧ (detectServiceUrl sNoPorts).1 = some "http://localhost:9000" := by
  exact ⟨rfl, rfl⟩

/-- C2 (amended): for every serviceInfo reporting zero ports, resolution does
not fail and instead falls back to the hardcoded port 9000, in both
setupAPIClientFromService and detectServiceUrl. -/
theorem empty_ports_fallback (s : ProviderState) (mgr : DockerServiceManager)
    (serviceInfo : ServiceInfo)
    (hmgr : s.dockerServiceManager = some mgr)
    (hinfo : mgr.getServiceInfoResult = Except.ok serviceInfo)
    (hempty : serviceInfo.ports = []) :
    (setupAPIClientFromService s).1.apiClient =
      some { baseUrl := "http://localhost:9000", timeout := 30000 }
    ∧ (detectServiceUrl s).1 = some "http://localhost:9000" := by
  constructor
  · simp [setupAPIClientFromService, hmgr, hinfo, firstPortOr9000, hempty]
    rfl
  · simp [detectServiceUrl, hmgr, hinfo, firstPortOr9000, hempty]
    rfl

/-- C2 witness: the fallback at a concrete state with an empty ports list and
a previously configured client. -/
theorem empty_ports_fallback_witness :
    (setupAPIClientFromService sNoPortsConfigured).1.apiClient =
      some { baseUrl := "http://localhost:9000", timeout := 30000 }
    ∧ (detectServiceUrl sNoPortsConfigured).1 = some "http://localhost:9000" :=
  empty_ports_fallback sNoPortsConfigured mgrNoPorts { ports := [] } rfl rfl rfl

/-- C3 counterexample: a state whose lifecycle status reports running = false
while the health probe answers true: isAvailable returns true anyway, so
availability is not gated on the lifecycle status being Running. -/
theorem isAvailable_ignores_lifecycle_cex :
    isAvailable sNotRunning (fun _ => Except.ok true) = true
    ∧ (getServiceStatus sNotRunning).1.running = false := by
  exact ⟨rfl, rfl⟩

/-- C3 (amended): isAvailable returns true exactly when an API client is
configured and its health probe returns true; the lifecycle status is not
consulted, and an absent client or a failed probe yields false. -/
theorem isAvailable_iff_probe (s : ProviderState)
    (checkHealth : WhisperAPIClient → Except String Bool) :
    isAvailable s checkHealth = true ↔
      ∃ c, s.apiClient = some c ∧ checkHealth c = Except.ok true := by
  unfold isAvailable
  cases hs : s.apiClient with
  | none => simp
  | some c =>
    cases hc : checkHealth c with
    | error e => simp [hc]
    | ok b => cases b <;> simp [hc]

/-- C3 witness: a configured client with a passing probe is available. -/
theorem isAvailable_iff_probe_witness :
    isAvailable sRunning (fun _ => Except.ok true) = true :=
  (isAvailable_iff_probe sRunning (fun _ => Except.ok true)).mpr ⟨_, rfl, rfl⟩

/-- C4 counterexample: with the lifecycle status already running, calling
startService still invokes the orchestration manager's startService (the
trace of the call contains the start invocation), so start is not guarded by
the current state. -/
theorem start_reinvokes_while_running_cex :
    (getServiceStatus sRunning).1.running = true
    ∧ OrchCall.start ∈ (startService sRunning).2.2 := by
  exact ⟨rfl, by decide⟩

/-- C4 (amended): startService and stopService always delegate to the
orchestration manager whenever one is configured, regardless of the current
status; with no manager configured both return false without issuing any
orchestration call. -/
theorem start_stop_always_delegate (s : ProviderState) (mgr : DockerServiceManager)
    (h : s.dockerServiceManager = some mgr) :
    OrchCall.start ∈ (startService s).2.2
    ∧ OrchCall.stop ∈ (stopService s).2.2
    ∧ (∀ t : ProviderState, t.dockerServiceManager = none →
        startService t = (t, false, []) ∧ stopService t = (t, false, [])) := by
  refine ⟨?_, ?_, ?_⟩
  · unfold startService
    rw [h]
    cases hr : mgr.startServiceResult with
    | error e => simp [hr]
    | ok b => cases b <;> simp [hr]
  · unfold stopService
    rw [h]
    cases hr : mgr.stopServiceResult with
    | error e => simp [hr]
    | ok b => simp [hr]
  · intro t ht
    constructor <;> simp [startService, stopService, ht]

/-- C4 witness: the delegation at the concrete running state. -/
theorem start_stop_always_delegate_witness :
    OrchCall.start ∈ (startService sRunning).2.2
    ∧ OrchCall.stop ∈ (stopService sRunning).2.2 :=
  ⟨(start_stop_always_delegate sRunning mgrRunning rfl).1,
   (start_stop_always_delegate sRunning mgrRunning rfl).2.1⟩

/-- C5 counterexample: two managers whose startService throws with the
distinct messages "boom-alpha" and "boom-beta" produce the identical
synchronous return false, so the underlying message is not preserved in the
value returned to the start caller. -/
theorem start_error_message_lost_cex :
    (startService sBoomAlpha).2.1 = false
    ∧ (startService sBoomBeta).2.1 = false
    ∧ (startService sBoomAlpha).2.1 = (startService sBoomBeta).2.1
    ∧ ("boom-alpha" : String) ≠ "boom-beta" := by
  exact ⟨rfl, rfl, rfl, by decide⟩

/-- C5 (amended): orchestration exceptions never propagate: during start and
stop they are caught and mapped to a bare false return that does not carry
the message, and during status retrieval they are caught and mapped to a
status record that does preserve the underlying message in its error field. -/
theorem orchestration_errors_swallowed (s : ProviderState) (mgr : DockerServiceManager)
    (msg : String) (h : s.dockerServiceManager = some mgr) :
    (mgr.startServiceResult = Except.error msg →
       startService s = (s, false, [OrchCall.start]))
    ∧ (mgr.stopServiceResult = Except.error msg →
       stopService s = (s, false, [OrchCall.stop]))
    ∧ (mgr.getServiceStatusResult = Except.error msg →
       (getServiceStatus s).1 = { running := false, healthy := false, error := some msg }) := by
  refine ⟨?_, ?_, ?_⟩ <;> intro he <;>
    simp [startService, stopService, getServiceStatus, h, he]

/-- C5 witness: the mapping at the concrete throwing manager. -/
theorem orchestration_errors_swallowed_witness :
    startService sBoomAlpha = (sBoomAlpha, false, [OrchCall.start])
    ∧ (getServiceStatus sBoomAlpha).1 =
        { running := false, healthy := false, error := some "boom-alpha" } :=
  ⟨(orchestration_errors_swallowed sBoomAlpha mgrBoomAlpha "boom-alpha" rfl).1 rfl,
   (orchestration_errors_swallowed sBoomAlpha mgrBoomAlpha "boom-alpha" rfl).2.2 rfl⟩

/-- C6: WhisperDockerModel.transform as written never consults the API
client and ignores the remote service entirely.  Evaluated at the failing
input of the claim scenario (model whisper-base, a wav payload, a fake remote
that would answer with text "hello world"): the code returns the hardcoded
stub record with zero API-client calls, instead of the remote tuple plus
modelId. -/
theorem transform_stub_at_failing_input :
    WhisperDockerModel.transform modelBase [1, 2, 3] (some "language=auto")
        "2026-10-11T00:00:00Z" =
      ({ text := "Transcribed text would be here", model := "whisper-base",
         timestamp := "2026-10-11T00:00:00Z" }, 0)
    ∧ (WhisperDockerModel.transform modelBase [1, 2, 3] (some "language=auto")
        "2026-10-11T00:00:00Z").1.text ≠ "hello world" := by
  exact ⟨rfl, by decide⟩

/-- C7: for every request whose filename extension is outside the supported
format set, transcribe fails with UnsupportedFormat and issues zero network
attempts, whatever the service status, the retry policy and the remote
behaviour. -/
theorem transcribe_unsupported_format_no_network (st : ServiceStatus)
    (policy : RetryPolicy) (req : TranscriptionRequest)
    (outcomes : Nat → AttemptOutcome)
    (h : extension req.filename ∉ supportedInputFormats) :
    transcribe st policy req outcomes = (Except.error WhisperError.UnsupportedFormat, 0) := by
  have hv : validateAudioFormat req.filename = false := by
    unfold validateAudioFormat
    exact decide_eq_false h
  simp [transcribe, hv]

/-- C7 witness: a txt filename is rejected with no network attempt. -/
theorem transcribe_unsupported_format_no_network_witness :
    transcribe ServiceStatus.Running { maxAttempts := 2, timeoutMs := 300000 }
        { audioBytes := [1, 2, 3], filename := "notes.txt" }
        (fun _ => AttemptOutcome.transport "timeout") =
      (Except.error WhisperError.UnsupportedFormat, 0) :=
  transcribe_unsupported_format_no_network _ _ _ _ (by decide)

/-- The retry loop on an all-transport outcome sequence makes exactly `fuel`
attempts and surfaces the message of the last one. -/
theorem runAttempts_all_transport (outcomes : Nat → AttemptOutcome) (msgs : Nat → String) :
    ∀ fuel idx, 1 ≤ fuel →
      (∀ i, i < fuel → outcomes (idx + i) = AttemptOutcome.transport (msgs (idx + i))) →
      runAttempts outcomes idx fuel =
        (Except.error (WhisperError.ServiceUnavailable (some (msgs (idx + fuel - 1)))), fuel) := by
  intro fuel
  induction fuel with
  | zero => intro idx h; omega
  | succ n ih =>
    intro idx _ hall
    have h0 : outcomes idx = AttemptOutcome.transport (msgs idx) := by
      simpa using hall 0 (Nat.succ_pos n)
    by_cases hn : n = 0
    · subst hn
      simp [runAttempts, h0]
    · have hrec := ih (idx + 1) (Nat.one_le_iff_ne_zero.mpr hn) (fun i hi => by
        have := hall (i + 1) (by omega)
        simpa [Nat.add_comm, Nat.add_left_comm, Nat.add_assoc] using this)
      have harith : idx + 1 + n - 1 = idx + (n + 1) - 1 := by omega
      simp [runAttempts, h0, hn, hrec, harith]

/-- C8: once validation passes and the service is running, transcribe with a
RetryPolicy of maxAttempts total attempts classifies failures as the claim
states: a remote 4xx on the first attempt is terminal, returned immediately
as InvalidRequest with exactly one attempt (zero retries), and an outcome
sequence that is a transport or timeout failure on every allowed attempt
exhausts exactly maxAttempts attempts and yields ServiceUnavailable carrying
the last underlying error. -/
theorem transcribe_retry_classification (policy : RetryPolicy)
    (req : TranscriptionRequest) (outcomes : Nat → AttemptOutcome) (msgs : Nat → String)
    (hfmt : validateAudioFormat req.filename = true)
    (hsize : req.audioBytes.length ≤ maxPayloadBytes)
    (hatt : 1 ≤ policy.maxAttempts) :
    (∀ st msg, outcomes 0 = AttemptOutcome.clientError st msg →
       transcribe ServiceStatus.Running policy req outcomes =
         (Except.error (WhisperError.InvalidRequest msg), 1))
    ∧ ((∀ i, i < policy.maxAttempts → outcomes i = AttemptOutcome.transport (msgs i)) →
       transcribe ServiceStatus.Running policy req outcomes =
         (Except.error (WhisperError.ServiceUnavailable (some (msgs (policy.maxAttempts - 1)))),
          policy.maxAttempts)) := by
  have hrun : transcribe ServiceStatus.Running policy req outcomes =
      runAttempts outcomes 0 policy.maxAttempts := by
    simp [transcribe, hfmt, Nat.not_lt.mpr hsize]
  constructor
  · intro st msg h0
    rw [hrun]
    obtain ⟨m, hm⟩ : ∃ m, policy.maxAttempts = m + 1 :=
      ⟨policy.maxAttempts - 1, by omega⟩
    rw [hm]
    simp [runAttempts, h0]
  · intro hall
    rw [hrun]
    have h := runAttempts_all_transport outcomes msgs policy.maxAttempts 0 hatt
      (fun i hi => by simpa using hall i hi)
    simpa using h

/-- C8 witness: the spec scenario of two consecutive timeouts under
maxAttempts 2 makes exactly 2 attempts and returns ServiceUnavailable with
the second timeout message. -/
theorem transcribe_retry_classification_witness :
    transcribe ServiceStatus.Running { maxAttempts := 2, timeoutMs := 300000 }
        { audioBytes := [1, 2, 3], filename := "a.wav" }
        (fun i => AttemptOutcome.transport ("timeout" ++ toString i)) =
      (Except.error (WhisperError.ServiceUnavailable (some "timeout1")), 2) := by
  have h := (transcribe_retry_classification { maxAttempts := 2, timeoutMs := 300000 }
      { audioBytes := [1, 2, 3], filename := "a.wav" }
      (fun i => AttemptOutcome.transport ("timeout" ++ toString i))
      (fun i => "timeout" ++ toString i)
      (by decide) (by decide) (by decide)).2 (fun i _ => rfl)
  exact h.trans (by decide)

/-- C9: with no API client constructed, the provider-level isAvailable and
the model-level isAvailable both return false (and, being total functions,
throw nothing), whatever the health oracle would answer. -/
theorem isAvailable_unconfigured_false (s : ProviderState) (m : WhisperDockerModel)
    (checkHealth : WhisperAPIClient → Except String Bool)
    (hs : s.apiClient = none) (hm : m.apiClient = none) :
    isAvailable s checkHealth = false
    ∧ WhisperDockerModel.isAvailable m checkHealth = false := by
  constructor
  · simp [isAvailable, hs]
  · simp [WhisperDockerModel.isAvailable, hm]

/-- C9 witness: the unconfigured provider and the client-less model. -/
theorem isAvailable_unconfigured_false_witness :
    isAvailable sUnconfigured (fun _ => Except.ok true) = false
    ∧ WhisperDockerModel.isAvailable modelNoClient (fun _ => Except.ok true) = false :=
  isAvailable_unconfigured_false sUnconfigured modelNoClient (fun _ => Except.ok true) rfl rfl

/-- C10: getModel returns an entry whose id equals the requested modelId for
each of the five fixed catalog ids, throws an error message naming the
requested modelId for every other id, and the catalog getModels returns is
the same for all provider states. -/
theorem getModel_catalog_spec (s t : ProviderState) (modelId : String) :
    (modelId ∈ whisperCatalogIds →
       ∃ m, getModel s modelId = Except.ok m ∧ m.id = modelId)
    ∧ (modelId ∉ whisperCatalogIds →
       getModel s modelId =
         Except.error ("Model " ++ apos ++ modelId ++ apos ++
           " not found in WhisperDockerProvider"))
    ∧ getModels s = getModels t := by
  refine ⟨?_, ?_, rfl⟩
  · intro hmem
    simp [whisperCatalogIds] at hmem
    rcases hmem with h | h | h | h | h <;> subst h <;> exact ⟨_, rfl, rfl⟩
  · intro hnot
    simp [whisperCatalogIds] at hnot
    obtain ⟨h1, h2, h3, h4, h5⟩ := hnot
    have hfind : (getModels s).find? (fun m => m.id == modelId) = none := by
      rw [List.find?_eq_none]
      intro x hx
      simp [getModels] at hx
      rcases hx with h | h | h | h | h <;> subst h <;>
        simp [beq_iff_eq] <;> intro he <;>
        first
          | exact h1 he.symm
          | exact h2 he.symm
          | exact h3 he.symm
          | exact h4 he.symm
          | exact h5 he.symm
    simp [getModel, hfind]

/-- C10 witness: whisper-base resolves to itself and a bogus id is rejected
with a message naming it. -/
theorem getModel_catalog_spec_witness :
    (∃ m, getModel sUnconfigured "whisper-base" = Except.ok m ∧ m.id = "whisper-base")
    ∧ getModel sUnconfigured "bogus" =
        Except.error ("Model " ++ apos ++ "bogus" ++ apos ++
          " not found in WhisperDockerProvider") :=
  ⟨(getModel_catalog_spec sUnconfigured sUnconfigured "whisper-base").1 (by decide),
   (getModel_catalog_spec sUnconfigured sUnconfigured "bogus").2.1 (by decide)⟩

end WhisperProvider
